import Mathlib

/-!
Shallow embedding of the retry/backoff, session and startup/shutdown logic of
the Neolauncher repository: `src/main/services/hydra-api.ts` and
`src/main/services/critical-error-handler.ts`.

HTTP calls, database operations and subprocess signals are modelled by their
outcomes (supplied as parameters), while the control flow of each function is
translated line by line from the TypeScript source.
-/

namespace HydraApi

/-- Node/axios error codes that the source inspects (`error.code`). -/
inductive ErrCode where
  | econnrefused
  | enotfound
  | etimedout
  | other
deriving Repr, DecidableEq

/-- Errors that can reach `retryRequest` / `handleUnauthorizedError`:
an `AxiosError` with optional `code` and optional response `status`
(`response === undefined` means no response was received),
the two auth precondition errors from `@shared`, or any other thrown
value carrying an optional `code` property. -/
inductive ApiError where
  | axios (code : Option ErrCode) (status : Option Nat)
  | userNotLoggedIn
  | subscriptionRequired
  | generic (code : Option ErrCode)
deriving Repr, DecidableEq

/-- `error instanceof UserNotLoggedInError || error instanceof SubscriptionRequiredError`. -/
def isAuthPreconditionError : ApiError → Bool
  | ApiError.userNotLoggedIn => true
  | ApiError.subscriptionRequired => true
  | _ => false

/-- `error instanceof AxiosError && error.response?.status === 401`. -/
def is401 : ApiError → Bool
  | ApiError.axios _ (some 401) => true
  | _ => false

/-- `HydraApi.isRetryableError`: an `AxiosError` is retryable when it has no
response or a status in `[500, 600)`; any other error is retryable when its
`code` is `ECONNREFUSED`, `ENOTFOUND` or `ETIMEDOUT`. -/
def isRetryableError : ApiError → Bool
  | ApiError.axios _ none => true
  | ApiError.axios _ (some s) => decide (500 ≤ s) && decide (s < 600)
  | ApiError.generic (some ErrCode.econnrefused) => true
  | ApiError.generic (some ErrCode.enotfound) => true
  | ApiError.generic (some ErrCode.etimedout) => true
  | _ => false

/-- What `retryRequest` ultimately does with the call: return the value,
rethrow an error unchanged (auth precondition errors and 401s), or throw one
of the three wrapper errors built after the loop ends
(`BackendUnavailableError`, `NetworkError` for `Server error: <status>`, and
the generic `NetworkError` for `Request failed: ...`). -/
inductive RetryOutcome (T : Type) where
  | ok (v : T)
  | rethrown (e : ApiError)
  | backendUnavailable (e : ApiError)
  | serverError (status : Nat) (e : ApiError)
  | requestFailed (e : ApiError)
deriving Repr, DecidableEq

/-- The error categorization after the retry loop exits with `lastError`:
`ECONNREFUSED`/`ENOTFOUND` axios errors become `BackendUnavailableError`,
axios errors with `response.status >= 500` become `NetworkError` wrapping the
status, and everything else becomes the generic `NetworkError`. -/
def categorize {T : Type} (e : ApiError) : RetryOutcome T :=
  match e with
  | ApiError.axios code status =>
      if code = some ErrCode.econnrefused ∨ code = some ErrCode.enotfound then
        RetryOutcome.backendUnavailable (ApiError.axios code status)
      else
        match status with
        | some s =>
            if 500 ≤ s then RetryOutcome.serverError s (ApiError.axios code status)
            else RetryOutcome.requestFailed (ApiError.axios code status)
        | none => RetryOutcome.requestFailed (ApiError.axios code status)
  | e => RetryOutcome.requestFailed e

/-- Observable trace of one `retryRequest` run: the surfaced outcome, how many
times `requestFn` was invoked, and the delays (ms) awaited between attempts. -/
structure RetryTrace (T : Type) where
  outcome : RetryOutcome T
  invocations : Nat
  delays : List Nat
deriving Repr, DecidableEq

def DEFAULT_RETRY_ATTEMPTS : Nat := 3

def DEFAULT_RETRY_DELAY : Nat := 1000

/-- The body of `retryRequest`'s `for` loop.  `remaining` is
`retryAttempts - attempt`, so `remaining = 0` exactly when
`attempt < retryAttempts` fails and no further retry is allowed.
The operation is indexed by the invocation number (0-based `attempt`) and may
act on a state `σ` (the effects performed inside `requestFn`, e.g. the
`.catch(handleUnauthorizedError)` of the API methods). -/
def retryRequestGo {σ T : Type} (op : Nat → σ → σ × Except ApiError T)
    (retryDelay : Nat) : Nat → Nat → σ → σ × RetryTrace T
  | 0, attempt, st =>
      match op attempt st with
      | (st', Except.ok v) => (st', ⟨RetryOutcome.ok v, 1, []⟩)
      | (st', Except.error e) =>
          if isAuthPreconditionError e then (st', ⟨RetryOutcome.rethrown e, 1, []⟩)
          else if is401 e then (st', ⟨RetryOutcome.rethrown e, 1, []⟩)
          else (st', ⟨categorize e, 1, []⟩)
  | (n + 1), attempt, st =>
      match op attempt st with
      | (st', Except.ok v) => (st', ⟨RetryOutcome.ok v, 1, []⟩)
      | (st', Except.error e) =>
          if isAuthPreconditionError e then (st', ⟨RetryOutcome.rethrown e, 1, []⟩)
          else if is401 e then (st', ⟨RetryOutcome.rethrown e, 1, []⟩)
          else if isRetryableError e then
            let r := retryRequestGo op retryDelay n (attempt + 1) st'
            (r.1, ⟨r.2.outcome, r.2.invocations + 1,
                   retryDelay * 2 ^ attempt :: r.2.delays⟩)
          else (st', ⟨categorize e, 1, []⟩)

/-- `HydraApi.retryRequest`: executes `requestFn` for `attempt` in
`0..retryAttempts`, rethrowing auth errors and 401s immediately, retrying
retryable errors after a delay of `retryDelay * 2^attempt`, and otherwise
categorizing the last error once the loop is left. -/
def retryRequest {σ T : Type} (op : Nat → σ → σ × Except ApiError T)
    (retryAttempts : Nat := DEFAULT_RETRY_ATTEMPTS)
    (retryDelay : Nat := DEFAULT_RETRY_DELAY) (st : σ) : σ × RetryTrace T :=
  retryRequestGo op retryDelay retryAttempts 0 st

def EXPIRATION_OFFSET_IN_MS : Int := 1000 * 60 * 5

/-- `secondsToMilliseconds`. -/
def secondsToMilliseconds (seconds : Int) : Int := seconds * 1000

/-- `HydraApiUserAuth`: the in-memory session.  `subscription` is
`null` (`none`) or an object whose `expiresAt` may itself be `null`
(timestamps are ms since the epoch). -/
structure UserAuth where
  authToken : String
  refreshToken : String
  expirationTimestamp : Int
  subscription : Option (Option Int)
deriving Repr, DecidableEq

/-- The initial / signed-out session value. -/
def emptyUserAuth : UserAuth :=
  { authToken := "", refreshToken := "", expirationTimestamp := 0,
    subscription := none }

/-- `isLoggedIn`. -/
def isLoggedIn (u : UserAuth) : Bool := u.authToken ≠ ""

/-- `hasActiveSubscription`: `new Date(subscription?.expiresAt ?? 0) > new Date()`
— a missing subscription or a `null` `expiresAt` falls back to the epoch. -/
def hasActiveSubscription (u : UserAuth) (now : Int) : Bool :=
  (match u.subscription with
   | some (some t) => t
   | _ => 0) > now

/-- The persisted auth record (`levelKeys.auth`). -/
structure Auth where
  accessToken : String
  refreshToken : String
  tokenExpirationTimestamp : Int
deriving Repr, DecidableEq

/-- Observable state of the API client: the session, the two persisted
records (`levelKeys.auth` / `levelKeys.user`, `none`/`false` = absent),
whether a main window (sign-out listener) exists, and the number of
`on-signout` events sent to it. -/
structure ApiState where
  userAuth : UserAuth
  dbAuth : Option Auth
  dbUser : Bool
  mainWindow : Bool
  signOutEvents : Nat
deriving Repr, DecidableEq

/-- `sendSignOutEvent`: emits `on-signout` only when a main window exists. -/
def sendSignOutEvent (st : ApiState) : ApiState :=
  if st.mainWindow then { st with signOutEvents := st.signOutEvents + 1 } else st

/-- `HydraApi.handleUnauthorizedError`: on an axios 401 it empties the
session, batch-deletes the persisted auth and user records and emits the
sign-out event; in every case it rethrows the error unchanged. -/
def handleUnauthorizedError (st : ApiState) (e : ApiError) : ApiState × ApiError :=
  if is401 e then
    (sendSignOutEvent
      { st with userAuth := emptyUserAuth, dbAuth := none, dbUser := false }, e)
  else (st, e)

/-- The `.catch(this.handleUnauthorizedError)` wrapped around each raw HTTP
attempt of the API methods: a successful response yields its data, a failure
is routed through `handleUnauthorizedError` (which rethrows it). -/
def attemptWithUnauthorizedCatch {T : Type} (raw : Nat → Except ApiError T) :
    Nat → ApiState → ApiState × Except ApiError T :=
  fun attempt st =>
    match raw attempt with
    | Except.ok v => (st, Except.ok v)
    | Except.error e =>
        let r := handleUnauthorizedError st e
        (r.1, Except.error r.2)

/-- `HydraApi.get` (request phase): the raw call, with the 401 catch, wrapped
in `retryRequest` with the caller's `retryAttempts`/`retryDelay` or the
defaults. -/
def get {T : Type} (st : ApiState) (raw : Nat → Except ApiError T)
    (retryAttempts retryDelay : Option Nat) : ApiState × RetryTrace T :=
  retryRequest (attemptWithUnauthorizedCatch raw)
    (retryAttempts.getD DEFAULT_RETRY_ATTEMPTS)
    (retryDelay.getD DEFAULT_RETRY_DELAY) st

/-- `HydraApi.post` (request phase): identical wrapping to `get`. -/
def post {T : Type} (st : ApiState) (raw : Nat → Except ApiError T)
    (retryAttempts retryDelay : Option Nat) : ApiState × RetryTrace T :=
  retryRequest (attemptWithUnauthorizedCatch raw)
    (retryAttempts.getD DEFAULT_RETRY_ATTEMPTS)
    (retryDelay.getD DEFAULT_RETRY_DELAY) st

/-- `HydraApi.put` (request phase): a single `axios.put` call with only the
401 catch — no `retryRequest` wrapping in the source. -/
def put {T : Type} (st : ApiState) (raw : Except ApiError T) :
    ApiState × Except ApiError T :=
  attemptWithUnauthorizedCatch (fun _ => raw) 0 st

/-- `HydraApi.patch` (request phase): a single call with only the 401 catch. -/
def patch {T : Type} (st : ApiState) (raw : Except ApiError T) :
    ApiState × Except ApiError T :=
  attemptWithUnauthorizedCatch (fun _ => raw) 0 st

/-- `HydraApi.delete` (request phase): a single call with only the 401 catch. -/
def delete {T : Type} (st : ApiState) (raw : Except ApiError T) :
    ApiState × Except ApiError T :=
  attemptWithUnauthorizedCatch (fun _ => raw) 0 st

/-- `HydraApi.handleExternalAuth`: the session written on sign-in, from the
decoded payload `{accessToken, refreshToken, expiresIn}` received at time
`now`; `subscription` starts as `null` and is filled in afterwards by the
`getUserData` fetch (`applySubscriptionFetch`). -/
def handleExternalAuth (accessToken refreshToken : String)
    (expiresIn now : Int) : UserAuth :=
  { authToken := accessToken, refreshToken := refreshToken,
    expirationTimestamp :=
      now + secondsToMilliseconds expiresIn - EXPIRATION_OFFSET_IN_MS,
    subscription := none }

/-- The `getUserData().then(...)` step of `handleExternalAuth`: only the
`subscription` field is updated. -/
def applySubscriptionFetch (u : UserAuth) (sub : Option (Option Int)) : UserAuth :=
  match sub with
  | some s => { u with subscription := some s }
  | none => u

/-- `HydraApi.handleSignOut`: the session is reset to the empty value (the
best-effort `/auth/logout` POST has no effect on it). -/
def handleSignOut (_u : UserAuth) : UserAuth := emptyUserAuth

/-- `HydraApi.refreshToken` (session effect): given the refresh response
`{accessToken, expiresIn}` received at time `now`, updates `authToken` and
`expirationTimestamp` in place; `refreshToken` and `subscription` are kept. -/
def refreshToken (u : UserAuth) (accessToken : String)
    (expiresIn now : Int) : UserAuth :=
  { u with authToken := accessToken,
           expirationTimestamp :=
             now + secondsToMilliseconds expiresIn - EXPIRATION_OFFSET_IN_MS }

/-- `revalidateAccessTokenIfExpired`: when the stored expiration timestamp is
in the past, the refresh endpoint is consulted; a successful response updates
the session, a failure is routed through `handleUnauthorizedError` and the
error propagates (`some e`). -/
def revalidateAccessTokenIfExpired (st : ApiState) (now : Int)
    (refreshResult : Except ApiError (String × Int)) :
    ApiState × Option ApiError :=
  if st.userAuth.expirationTimestamp < now then
    match refreshResult with
    | Except.ok (accessToken, expiresIn) =>
        ({ st with userAuth := HydraApi.refreshToken st.userAuth accessToken expiresIn now },
         none)
    | Except.error e =>
        let r := handleUnauthorizedError st e
        (r.1, some r.2)
  else (st, none)

/-- The spec's all-or-nothing Session invariant:
`accessToken == "" ⇔ refreshToken == "" ⇔ expiresAt == 0`. -/
def sessionInvariant (u : UserAuth) : Prop :=
  (u.authToken = "" ↔ u.refreshToken = "") ∧
  (u.authToken = "" ↔ u.expirationTimestamp = 0)

instance (u : UserAuth) : Decidable (sessionInvariant u) := by
  unfold sessionInvariant; infer_instance

/-- Modelled from the spec's words, for comparison with the `put` of the
source: "Operations get/post/put/patch/delete each ... wrap the call in the
Backoff/Retry Engine with policy defaults {maxAttempts=3, baseDelay=1s}". -/
def putPerSpec {T : Type} (st : ApiState) (raw : Nat → Except ApiError T) :
    ApiState × RetryTrace T :=
  retryRequest (attemptWithUnauthorizedCatch raw)
    DEFAULT_RETRY_ATTEMPTS DEFAULT_RETRY_DELAY st

/-- Whether a retry outcome is the `BackendUnavailableError` surface. -/
def isBackendUnavailableOutcome {T : Type} : RetryOutcome T → Bool
  | RetryOutcome.backendUnavailable _ => true
  | _ => false

/-- `st'` is `st` after the forced sign-out of `handleUnauthorizedError`:
session emptied, both persisted records deleted, one more sign-out
notification emitted, window unchanged. -/
def signedOutFrom (st st' : ApiState) : Prop :=
  st'.userAuth = emptyUserAuth ∧ st'.dbAuth = none ∧ st'.dbUser = false ∧
  st'.mainWindow = st.mainWindow ∧ st'.signOutEvents = st.signOutEvents + 1

/-- A populated example session, used to instantiate theorems. -/
def sampleAuth : UserAuth :=
  { authToken := "token-a", refreshToken := "token-r",
    expirationTimestamp := 1700000000000, subscription := none }

/-- An example client state with a live session, both persisted records and a
main window. -/
def sampleState : ApiState :=
  { userAuth := sampleAuth,
    dbAuth := some { accessToken := "token-a", refreshToken := "token-r",
                     tokenExpirationTimestamp := 1700000000000 },
    dbUser := true, mainWindow := true, signOutEvents := 0 }

/-- An HTTP 503 response error. -/
def e503 : ApiError := ApiError.axios none (some 503)

/-- An HTTP 401 response error. -/
def e401 : ApiError := ApiError.axios none (some 401)

/-- A connection timeout: an axios error with code `ETIMEDOUT` and no
response. -/
def eTimeout : ApiError := ApiError.axios (some ErrCode.etimedout) none

/-- A connection-refused failure: an axios error with code `ECONNREFUSED`
and no response. -/
def eConnRefused : ApiError := ApiError.axios (some ErrCode.econnrefused) none

end HydraApi

namespace CriticalErrorHandler

/-- `CriticalStartupError`: message, component and recoverability flag. -/
structure CriticalStartupError where
  message : String
  component : String
  recoverable : Bool
deriving Repr, DecidableEq

/-- The three error classes thrown by the startup steps:
`CriticalStartupError` (lock), `DatabaseCorruptionError` and
`SystemPathError`. -/
inductive CriticalError where
  | startup (e : CriticalStartupError)
  | databaseCorruption (message : String)
  | systemPath (message : String) (path : String)
deriving Repr, DecidableEq

def MAX_RETRY_ATTEMPTS : Nat := 3

def RETRY_DELAY : Nat := 2000

/-- The fatal error thrown when the last lock attempt fails. -/
def lockFailureError : CriticalStartupError :=
  { message := "Failed to acquire application lock after multiple attempts. Another instance may be running.",
    component := "Lock", recoverable := false }

instance instDecEqExcept {ε α : Type} [DecidableEq ε] [DecidableEq α] :
    DecidableEq (Except ε α)
  | Except.ok x, Except.ok y =>
      if h : x = y then isTrue (h ▸ rfl)
      else isFalse (fun hc => h (Except.ok.inj hc))
  | Except.ok _, Except.error _ => isFalse (fun hc => Except.noConfusion hc)
  | Except.error _, Except.ok _ => isFalse (fun hc => Except.noConfusion hc)
  | Except.error x, Except.error y =>
      if h : x = y then isTrue (h ▸ rfl)
      else isFalse (fun hc => h (Except.error.inj hc))

/-- Observable trace of `handleLockAcquisition`: how many times
`Lock.acquireLock` was called, the delays (ms) awaited between attempts, and
whether the step returned or threw. -/
structure LockTrace where
  attempts : Nat
  delays : List Nat
  result : Except CriticalStartupError Unit
deriving Repr, DecidableEq

/-- The body of `handleLockAcquisition`'s `for` loop.  `remaining` counts the
attempts still allowed including the current one; `attempt` is the 1-based
loop counter, so `remaining = 1` exactly when `attempt === MAX_RETRY_ATTEMPTS`
and the fatal error is thrown instead of delaying again. -/
def lockGo (acquire : Nat → Bool) : Nat → Nat → LockTrace
  | 0, _ => ⟨0, [], Except.ok ()⟩
  | (n + 1), attempt =>
      if acquire attempt then ⟨1, [], Except.ok ()⟩
      else if n = 0 then ⟨1, [], Except.error lockFailureError⟩
      else
        let r := lockGo acquire n (attempt + 1)
        ⟨r.attempts + 1, RETRY_DELAY * attempt :: r.delays, r.result⟩

/-- `handleLockAcquisition`: up to `MAX_RETRY_ATTEMPTS` calls to
`Lock.acquireLock` (attempt = 1, 2, 3), a delay of `RETRY_DELAY * attempt`
after each failed non-final attempt, and the fatal `Lock` error when the
final attempt fails. -/
def handleLockAcquisition (acquire : Nat → Bool) : LockTrace :=
  lockGo acquire MAX_RETRY_ATTEMPTS 1

/-- The entry pushed to `startupErrors` when a service `init` throws:
`new CriticalStartupError(name + " failed to initialize: " + message, name, true)`. -/
def serviceInitFailureEntry (name msg : String) : CriticalStartupError :=
  { message := name ++ " failed to initialize: " ++ msg,
    component := name, recoverable := true }

/-- `handleEssentialServices`: iterates the service descriptor list in order;
each failed `init` pushes a recoverable entry onto the accumulated
`startupErrors` list (`acc`) and the loop continues; the function itself
never throws. -/
def handleEssentialServices (acc : List CriticalStartupError) :
    List (String × Except String Unit) → List CriticalStartupError
  | [] => acc
  | (name, r) :: rest =>
      match r with
      | Except.ok _ => handleEssentialServices acc rest
      | Except.error msg =>
          handleEssentialServices (acc ++ [serviceInitFailureEntry name msg]) rest

/-- Result of `handleCriticalStartup`: either the sequence ran to its end
(`Ready`, with the accumulated recoverable startup errors) or a fatal error
was thrown by one of the first three steps. -/
inductive StartupOutcome where
  | ready (startupErrors : List CriticalStartupError)
  | failed (e : CriticalError)
deriving Repr, DecidableEq

/-- `handleCriticalStartup` (the `try` block): lock acquisition, database
check with recovery, path validation with recovery, then the essential
services loop.  Collaborator outcomes are passed in: `dbOk`/`pathsOk` say
whether the probe succeeded, `dbRecovered`/`pathsRecovered` whether the
recovery attempt did. -/
def handleCriticalStartup (acquire : Nat → Bool)
    (dbOk dbRecovered pathsOk pathsRecovered : Bool)
    (prevErrors : List CriticalStartupError)
    (inits : List (String × Except String Unit)) : StartupOutcome :=
  match (handleLockAcquisition acquire).result with
  | Except.error e => StartupOutcome.failed (CriticalError.startup e)
  | Except.ok _ =>
      if !dbOk && !dbRecovered then
        StartupOutcome.failed (CriticalError.databaseCorruption
          "Database is corrupted and cannot be recovered. Please reinstall the application.")
      else if !pathsOk && !pathsRecovered then
        StartupOutcome.failed (CriticalError.systemPath
          "Critical system paths are inaccessible. Please check file permissions."
          "system-paths")
      else
        StartupOutcome.ready (handleEssentialServices prevErrors inits)

/-- `error instanceof CriticalStartupError ? error.recoverable : false`. -/
def isRecoverableError : CriticalError → Bool
  | CriticalError.startup e => e.recoverable
  | _ => false

/-- `error.name` of the triggering error, as serialized in the report. -/
def errorName : CriticalError → String
  | CriticalError.startup _ => "CriticalStartupError"
  | CriticalError.databaseCorruption _ => "DatabaseCorruptionError"
  | CriticalError.systemPath _ _ => "SystemPathError"

/-- `error.message` of the triggering error. -/
def errorMessage : CriticalError → String
  | CriticalError.startup e => e.message
  | CriticalError.databaseCorruption m => m
  | CriticalError.systemPath m _ => m

/-- The button rows of the startup-failure dialog:
`['Retry', 'Continue Anyway', 'Exit']` when the error is recoverable,
`['Exit', 'Report Issue']` otherwise. -/
def startupFailureButtons (recoverable : Bool) : List String :=
  if recoverable then ["Retry", "Continue Anyway", "Exit"]
  else ["Exit", "Report Issue"]

/-- The `error` field of an issue report. -/
structure ReportErrorInfo where
  name : String
  message : String
  stack : String
deriving Repr, DecidableEq

/-- The per-entry serialization `{component, message, recoverable}` of an
accumulated startup error. -/
structure ReportStartupEntry where
  component : String
  message : String
  recoverable : Bool
deriving Repr, DecidableEq

/-- The `systemInfo` field of an issue report. -/
structure SystemInfo where
  platform : String
  arch : String
  version : String
  electronVersion : String
deriving Repr, DecidableEq

/-- The diagnostic record built by `reportIssue`. -/
structure IssueReport where
  timestamp : String
  error : ReportErrorInfo
  startupErrors : List ReportStartupEntry
  systemInfo : SystemInfo
deriving Repr, DecidableEq

/-- `reportIssue`: serializes the triggering error (name, message, stack),
the accumulated startup errors and the platform metadata. -/
def reportIssue (timestamp : String) (e : CriticalError) (stack : String)
    (startupErrors : List CriticalStartupError) (sys : SystemInfo) :
    IssueReport :=
  { timestamp := timestamp,
    error := { name := errorName e, message := errorMessage e, stack := stack },
    startupErrors := startupErrors.map (fun s =>
      { component := s.component, message := s.message,
        recoverable := s.recoverable }),
    systemInfo := sys }

/-- What the `switch (result.response)` of `handleStartupFailure` ends up
doing: which branch ran, whether a report was produced, whether `app.quit()`
was called, whether startup was retried, whether the limited-functionality
path ran. -/
structure FailureHandling where
  report : Option IssueReport
  quit : Bool
  retriedStartup : Bool
  continuedLimited : Bool
deriving Repr, DecidableEq

/-- The dispatch of `handleStartupFailure` on the dialog's selected button
index `response` (the dialog itself shows `startupFailureButtons
(isRecoverableError e)`).  Case 0 retries when recoverable, quits otherwise;
case 1 continues with limited functionality only when recoverable; case 2
reports the issue and quits; any other index does nothing. -/
def handleStartupFailure (e : CriticalError) (response : Nat)
    (timestamp stack : String) (startupErrors : List CriticalStartupError)
    (sys : SystemInfo) : FailureHandling :=
  if response = 0 then
    if isRecoverableError e then
      { report := none, quit := false, retriedStartup := true,
        continuedLimited := false }
    else
      { report := none, quit := true, retriedStartup := false,
        continuedLimited := false }
  else if response = 1 then
    if isRecoverableError e then
      { report := none, quit := false, retriedStartup := false,
        continuedLimited := true }
    else
      { report := none, quit := false, retriedStartup := false,
        continuedLimited := false }
  else if response = 2 then
    { report := some (reportIssue timestamp e stack startupErrors sys),
      quit := true, retriedStartup := false, continuedLimited := false }
  else
    { report := none, quit := false, retriedStartup := false,
      continuedLimited := false }

/-- `process.platform` as the shutdown code branches on it. -/
inductive Platform where
  | win32
  | other
deriving Repr, DecidableEq

/-- The externally visible steps of the shutdown sequence. -/
inductive ShutdownAction where
  | stopDownloads
  | disconnectWS
  | pythonRpcKill
  | taskkillPython
  | pkillPython
  | releaseLock
  | forceExit (code : Nat)
deriving Repr, DecidableEq

/-- `forceKillPythonProcesses`: `taskkill /f /im python.exe` on win32,
`pkill -f python` elsewhere; its own failure is caught and swallowed, so it
never throws. -/
def forceKillPythonProcesses (platform : Platform) : List ShutdownAction :=
  match platform with
  | Platform.win32 => [ShutdownAction.taskkillPython]
  | Platform.other => [ShutdownAction.pkillPython]

/-- `killPythonProcesses`: tries the cooperative `PythonRPC.kill`; when that
fails, falls back to the platform-specific force kill.  Never throws. -/
def killPythonProcesses (platform : Platform) (coopKillOk : Bool) :
    List ShutdownAction :=
  if coopKillOk then [ShutdownAction.pythonRpcKill]
  else ShutdownAction.pythonRpcKill :: forceKillPythonProcesses platform

/-- `handleGracefulShutdown`: stop downloads, disconnect the socket, kill the
Python subprocess (with fallback), release the lock; any exception in the
sequence is caught and answered with `app.exit(1)`.  Each `...Ok` flag says
whether the corresponding collaborator call succeeded. -/
def handleGracefulShutdown (platform : Platform)
    (stopOk wsOk coopKillOk releaseOk : Bool) : List ShutdownAction :=
  if !stopOk then [ShutdownAction.stopDownloads, ShutdownAction.forceExit 1]
  else if !wsOk then
    [ShutdownAction.stopDownloads, ShutdownAction.disconnectWS,
     ShutdownAction.forceExit 1]
  else
    [ShutdownAction.stopDownloads, ShutdownAction.disconnectWS] ++
      killPythonProcesses platform coopKillOk ++
      (if releaseOk then [ShutdownAction.releaseLock]
       else [ShutdownAction.releaseLock, ShutdownAction.forceExit 1])

/-- Example platform metadata for instantiating report theorems. -/
def sampleSystemInfo : SystemInfo :=
  { platform := "linux", arch := "x64", version := "v20.9.0",
    electronVersion := "28.0.0" }

/-- The five-entry service descriptor list of `handleEssentialServices`, with
an outcome for each `init`; here `HydraApi` and `CommonRedistManager` fail. -/
def fiveServicesTwoFailing : List (String × Except String Unit) :=
  [("PythonRPC", Except.ok ()),
   ("HydraApi", Except.error "connect ECONNREFUSED"),
   ("DownloadManager", Except.ok ()),
   ("CommonRedistManager", Except.error "redist download failed"),
   ("Ludusavi", Except.ok ())]

end CriticalErrorHandler

namespace HydraApi

/-- A retryable error is neither an auth precondition error nor a 401. -/
theorem isRetryable_excludes_immediate (e : ApiError)
    (hr : isRetryableError e = true) :
    isAuthPreconditionError e = false ∧ is401 e = false := by
  cases e with
  | axios code status =>
      refine ⟨rfl, ?_⟩
      cases status with
      | none => rfl
      | some s =>
          by_cases h : s = 401
          · subst h; simp [isRetryableError] at hr
          · simp [is401, h]
  | userNotLoggedIn => simp [isRetryableError] at hr
  | subscriptionRequired => simp [isRetryableError] at hr
  | generic code => exact ⟨rfl, rfl⟩

/-- A 401 is not an auth precondition error. -/
theorem is401_not_auth (e : ApiError) (h : is401 e = true) :
    isAuthPreconditionError e = false := by
  cases e with
  | axios code status => rfl
  | userNotLoggedIn => simp [is401] at h
  | subscriptionRequired => simp [is401] at h
  | generic code => simp [is401] at h

/-- The categorization never yields a success. -/
theorem categorize_ne_ok {T : Type} (e : ApiError) (v : T) :
    categorize e ≠ RetryOutcome.ok v := by
  cases e with
  | axios code status =>
      unfold categorize
      by_cases h : code = some ErrCode.econnrefused ∨ code = some ErrCode.enotfound
      · simp [h]
      · cases status with
        | none => simp [h]
        | some s =>
            by_cases h5 : 500 ≤ s
            · simp [h, h5]
            · simp [h, h5]
  | userNotLoggedIn => simp [categorize]
  | subscriptionRequired => simp [categorize]
  | generic code => simp [categorize]

/-- Shifting the delay schedule by one attempt. -/
theorem delays_range_succ (d attempt n : Nat) :
    (List.range (n + 1)).map (fun i => d * 2 ^ (attempt + i)) =
      d * 2 ^ attempt ::
        (List.range n).map (fun i => d * 2 ^ (attempt + 1 + i)) := by
  rw [List.range_succ_eq_map, List.map_cons, List.map_map]
  refine congrArg₂ _ (by rw [Nat.add_zero]) ?_
  refine List.map_congr_left ?_
  intro a _
  have h : attempt + (a + 1) = attempt + 1 + a := by omega
  simp [Function.comp, Nat.succ_eq_add_one, h]

/-- One run of the retry loop over an operation that fails with the same
retryable error on every invocation: the state is untouched, every allowed
retry is used, the delays double from `d * 2 ^ attempt` on, and the last
error is categorized. -/
theorem retryRequestGo_const_error {σ T : Type}
    (op : Nat → σ → σ × Except ApiError T) (d : Nat) (e : ApiError)
    (hop : ∀ i s, op i s = (s, Except.error e))
    (hr : isRetryableError e = true) :
    ∀ remaining attempt st,
      retryRequestGo op d remaining attempt st =
        (st, ⟨categorize e, remaining + 1,
              (List.range remaining).map (fun i => d * 2 ^ (attempt + i))⟩) := by
  obtain ⟨hauth, h401⟩ := isRetryable_excludes_immediate e hr
  intro remaining
  induction remaining with
  | zero =>
      intro attempt st
      simp [retryRequestGo, hop, hauth, h401]
  | succ n ih =>
      intro attempt st
      simp only [retryRequestGo, hop, hauth, h401, hr, Bool.false_eq_true,
        if_false, if_true, ih, delays_range_succ]

end HydraApi

/-- C1: for every retry policy with `maxAttempts = n` (the `retryAttempts`
parameter of `HydraApi.retryRequest`), an operation failing with a retryable
error on every invocation is invoked exactly `n + 1` times, after which the
failure propagates to the caller (the categorized error, never a success). -/
theorem C1_retryRequest_invokes_n_plus_one {σ T : Type}
    (op : Nat → σ → σ × Except HydraApi.ApiError T) (st : σ)
    (e : HydraApi.ApiError) (n d : Nat)
    (hop : ∀ i s, op i s = (s, Except.error e))
    (hr : HydraApi.isRetryableError e = true) :
    (HydraApi.retryRequest op n d st).2.invocations = n + 1 ∧
    (HydraApi.retryRequest op n d st).2.outcome = HydraApi.categorize e ∧
    ∀ v : T, (HydraApi.retryRequest op n d st).2.outcome ≠
      HydraApi.RetryOutcome.ok v := by
  have h := HydraApi.retryRequestGo_const_error op d e hop hr n 0 st
  unfold HydraApi.retryRequest
  rw [h]
  exact ⟨rfl, rfl, fun v => HydraApi.categorize_ne_ok e v⟩

/-- Witness for C1: a permanently failing 503 operation under
`retryAttempts = 3` is invoked exactly 4 times and does not succeed. -/
theorem C1_witness :
    HydraApi.isRetryableError HydraApi.e503 = true ∧
    (HydraApi.retryRequest
        (fun (_ : Nat) (s : Unit) =>
          (s, (Except.error HydraApi.e503 : Except HydraApi.ApiError Nat)))
        3 1000 ()).2.invocations = 3 + 1 := by
  refine ⟨by decide, ?_⟩
  exact (C1_retryRequest_invokes_n_plus_one
    (fun (_ : Nat) (s : Unit) =>
      (s, (Except.error HydraApi.e503 : Except HydraApi.ApiError Nat))) ()
    HydraApi.e503 3 1000 (fun _ _ => rfl) (by decide)).1

/-- C2 counterexample: on a transient 503 that a single retry would fix,
`HydraApi.put` surfaces the failure (it performs exactly one call), while the
spec's retry-wrapped version of `put` succeeds with the second attempt after
one delay — so `put` does not wrap its HTTP call in the Backoff/Retry
Engine. -/
theorem C2_counterexample :
    (HydraApi.put HydraApi.sampleState
        (Except.error HydraApi.e503 : Except HydraApi.ApiError Nat)).2 =
      Except.error HydraApi.e503 ∧
    (HydraApi.putPerSpec HydraApi.sampleState
        (fun n => if n = 0 then Except.error HydraApi.e503
                  else Except.ok (42 : Nat))).2.outcome =
      HydraApi.RetryOutcome.ok 42 ∧
    (HydraApi.putPerSpec HydraApi.sampleState
        (fun n => if n = 0 then Except.error HydraApi.e503
                  else Except.ok (42 : Nat))).2.invocations = 2 := by
  refine ⟨by decide, by decide, by decide⟩

/-- C2 amended: `get` and `post` wrap the call in the Backoff/Retry Engine
with defaults `maxAttempts = 3`, `baseDelay = 1000 ms`, doubling the delay on
each retry; `put`, `patch` and `delete` issue the call exactly once with only
the 401 interceptor and no retry. -/
theorem C2_amended :
    (∀ (T : Type) (st : HydraApi.ApiState)
       (raw : Nat → Except HydraApi.ApiError T),
       HydraApi.get st raw none none =
         HydraApi.retryRequest (HydraApi.attemptWithUnauthorizedCatch raw)
           HydraApi.DEFAULT_RETRY_ATTEMPTS HydraApi.DEFAULT_RETRY_DELAY st) ∧
    (∀ (T : Type) (st : HydraApi.ApiState)
       (raw : Nat → Except HydraApi.ApiError T),
       HydraApi.post st raw none none =
         HydraApi.retryRequest (HydraApi.attemptWithUnauthorizedCatch raw)
           HydraApi.DEFAULT_RETRY_ATTEMPTS HydraApi.DEFAULT_RETRY_DELAY st) ∧
    HydraApi.DEFAULT_RETRY_ATTEMPTS = 3 ∧
    HydraApi.DEFAULT_RETRY_DELAY = 1000 ∧
    (HydraApi.get HydraApi.sampleState
        (fun (_ : Nat) =>
          (Except.error HydraApi.e503 : Except HydraApi.ApiError Nat))
        none none).2.delays = [1000, 2000, 4000] ∧
    (∀ (T : Type) (st : HydraApi.ApiState) (e : HydraApi.ApiError),
       HydraApi.is401 e = false →
       HydraApi.put st (Except.error e : Except HydraApi.ApiError T) =
         (st, Except.error e)) ∧
    (∀ (T : Type) (st : HydraApi.ApiState) (e : HydraApi.ApiError),
       HydraApi.is401 e = false →
       HydraApi.patch st (Except.error e : Except HydraApi.ApiError T) =
         (st, Except.error e)) ∧
    (∀ (T : Type) (st : HydraApi.ApiState) (e : HydraApi.ApiError),
       HydraApi.is401 e = false →
       HydraApi.delete st (Except.error e : Except HydraApi.ApiError T) =
         (st, Except.error e)) := by
  refine ⟨fun T st raw => rfl, fun T st raw => rfl, rfl, rfl, by decide,
    ?_, ?_, ?_⟩ <;>
  · intro T st e h
    simp [HydraApi.put, HydraApi.patch, HydraApi.delete,
      HydraApi.attemptWithUnauthorizedCatch, HydraApi.handleUnauthorizedError, h]

/-- Witness for C2 amended: a non-401 failure of `put` surfaces unchanged
with the state untouched. -/
theorem C2_amended_witness :
    HydraApi.is401 HydraApi.e503 = false ∧
    HydraApi.put HydraApi.sampleState
        (Except.error HydraApi.e503 : Except HydraApi.ApiError Nat) =
      (HydraApi.sampleState, Except.error HydraApi.e503) :=
  ⟨by decide,
   C2_amended.2.2.2.2.2.1 Nat HydraApi.sampleState HydraApi.e503 (by decide)⟩

/-- The retry loop stops at the very first 401: the error is rethrown with no
further invocation and no delay, whatever the remaining retry budget. -/
theorem retryRequestGo_first_401 {σ T : Type}
    (op : Nat → σ → σ × Except HydraApi.ApiError T) (d : Nat)
    (remaining attempt : Nat) (st st' : σ) (e : HydraApi.ApiError)
    (hop : op attempt st = (st', Except.error e))
    (h1 : HydraApi.is401 e = true) :
    HydraApi.retryRequestGo op d remaining attempt st =
      (st', ⟨HydraApi.RetryOutcome.rethrown e, 1, []⟩) := by
  have hauth := HydraApi.is401_not_auth e h1
  cases remaining <;>
    simp [HydraApi.retryRequestGo, hop, hauth, h1]

/-- C3: for every API call whose attempt fails with an HTTP 401, the session
is reset to its empty state, the persisted auth and user records are deleted,
a sign-out notification is emitted to the listening main window, and the
error is rethrown with zero additional attempts, for all five methods. -/
theorem C3_401_is_terminal {T : Type} (st : HydraApi.ApiState)
    (raw : Nat → Except HydraApi.ApiError T) (ra rd : Option Nat)
    (e : HydraApi.ApiError)
    (h0 : raw 0 = Except.error e) (h1 : HydraApi.is401 e = true)
    (hw : st.mainWindow = true) :
    (HydraApi.signedOutFrom st (HydraApi.get st raw ra rd).1 ∧
     (HydraApi.get st raw ra rd).2 =
       ⟨HydraApi.RetryOutcome.rethrown e, 1, []⟩) ∧
    (HydraApi.signedOutFrom st (HydraApi.post st raw ra rd).1 ∧
     (HydraApi.post st raw ra rd).2 =
       ⟨HydraApi.RetryOutcome.rethrown e, 1, []⟩) ∧
    (HydraApi.signedOutFrom st (HydraApi.put st (raw 0)).1 ∧
     (HydraApi.put st (raw 0)).2 = Except.error e) ∧
    (HydraApi.signedOutFrom st (HydraApi.patch st (raw 0)).1 ∧
     (HydraApi.patch st (raw 0)).2 = Except.error e) ∧
    (HydraApi.signedOutFrom st (HydraApi.delete st (raw 0)).1 ∧
     (HydraApi.delete st (raw 0)).2 = Except.error e) := by
  have hcatch : HydraApi.attemptWithUnauthorizedCatch raw 0 st =
      ({ st with userAuth := HydraApi.emptyUserAuth, dbAuth := none,
                 dbUser := false, signOutEvents := st.signOutEvents + 1 },
       Except.error e) := by
    simp [HydraApi.attemptWithUnauthorizedCatch, h0,
      HydraApi.handleUnauthorizedError, h1, HydraApi.sendSignOutEvent, hw]
  have hso : HydraApi.signedOutFrom st
      { st with userAuth := HydraApi.emptyUserAuth, dbAuth := none,
                dbUser := false, signOutEvents := st.signOutEvents + 1 } :=
    ⟨rfl, rfl, rfl, rfl, rfl⟩
  have hget : HydraApi.get st raw ra rd =
      ({ st with userAuth := HydraApi.emptyUserAuth, dbAuth := none,
                 dbUser := false, signOutEvents := st.signOutEvents + 1 },
       ⟨HydraApi.RetryOutcome.rethrown e, 1, []⟩) :=
    retryRequestGo_first_401 _ _ _ 0 st _ e hcatch h1
  have hpost : HydraApi.post st raw ra rd =
      ({ st with userAuth := HydraApi.emptyUserAuth, dbAuth := none,
                 dbUser := false, signOutEvents := st.signOutEvents + 1 },
       ⟨HydraApi.RetryOutcome.rethrown e, 1, []⟩) :=
    retryRequestGo_first_401 _ _ _ 0 st _ e hcatch h1
  have hput : HydraApi.put st (raw 0) =
      ({ st with userAuth := HydraApi.emptyUserAuth, dbAuth := none,
                 dbUser := false, signOutEvents := st.signOutEvents + 1 },
       Except.error e) := by
    simpa [HydraApi.put] using hcatch
  have hpatch : HydraApi.patch st (raw 0) =
      ({ st with userAuth := HydraApi.emptyUserAuth, dbAuth := none,
                 dbUser := false, signOutEvents := st.signOutEvents + 1 },
       Except.error e) := by
    simpa [HydraApi.patch] using hcatch
  have hdel : HydraApi.delete st (raw 0) =
      ({ st with userAuth := HydraApi.emptyUserAuth, dbAuth := none,
                 dbUser := false, signOutEvents := st.signOutEvents + 1 },
       Except.error e) := by
    simpa [HydraApi.delete] using hcatch
  refine ⟨⟨?_, ?_⟩, ⟨?_, ?_⟩, ⟨?_, ?_⟩, ⟨?_, ?_⟩, ⟨?_, ?_⟩⟩ <;>
    simp only [hget, hpost, hput, hpatch, hdel] <;>
    exact hso

/-- Witness for C3: a 401 on the first `get` attempt empties the session and
rethrows with a single invocation. -/
theorem C3_witness :
    HydraApi.is401 HydraApi.e401 = true ∧
    HydraApi.signedOutFrom HydraApi.sampleState
      (HydraApi.get HydraApi.sampleState
        (fun (_ : Nat) =>
          (Except.error HydraApi.e401 : Except HydraApi.ApiError Nat))
        none none).1 ∧
    (HydraApi.get HydraApi.sampleState
        (fun (_ : Nat) =>
          (Except.error HydraApi.e401 : Except HydraApi.ApiError Nat))
        none none).2 =
      ⟨HydraApi.RetryOutcome.rethrown HydraApi.e401, 1, []⟩ := by
  refine ⟨by decide, ?_, ?_⟩
  · exact (C3_401_is_terminal HydraApi.sampleState
      (fun _ => Except.error HydraApi.e401) none none HydraApi.e401
      rfl (by decide) rfl).1.1
  · exact (C3_401_is_terminal HydraApi.sampleState
      (fun _ => Except.error HydraApi.e401) none none HydraApi.e401
      rfl (by decide) rfl).1.2

namespace HydraApi

/-- `sendSignOutEvent` never changes the session itself. -/
theorem sendSignOutEvent_userAuth (st : ApiState) :
    (sendSignOutEvent st).userAuth = st.userAuth := by
  unfold sendSignOutEvent
  split <;> rfl

end HydraApi

/-- C4: each Session transition — sign-in (`handleExternalAuth`, including
the later subscription fetch), token refresh (`refreshToken`), sign-out
(`handleSignOut`), and the forced unauthorized reset
(`handleUnauthorizedError`) — leaves `accessToken`, `refreshToken` and
`expiresAt` jointly empty or jointly populated.  Sign-in assumes the external
payload carries non-empty tokens and a non-zero computed expiry; refresh
assumes the session holds a refresh token and the server returned a non-empty
access token with a non-zero computed expiry. -/
theorem C4_session_invariant_after_transitions :
    (∀ (a r : String) (expIn now : Int), a ≠ "" → r ≠ "" →
       now + HydraApi.secondsToMilliseconds expIn -
         HydraApi.EXPIRATION_OFFSET_IN_MS ≠ 0 →
       HydraApi.sessionInvariant (HydraApi.handleExternalAuth a r expIn now)) ∧
    (∀ (u : HydraApi.UserAuth) (sub : Option (Option Int)),
       HydraApi.sessionInvariant u →
       HydraApi.sessionInvariant (HydraApi.applySubscriptionFetch u sub)) ∧
    (∀ (u : HydraApi.UserAuth) (a : String) (expIn now : Int),
       u.refreshToken ≠ "" → a ≠ "" →
       now + HydraApi.secondsToMilliseconds expIn -
         HydraApi.EXPIRATION_OFFSET_IN_MS ≠ 0 →
       HydraApi.sessionInvariant (HydraApi.refreshToken u a expIn now)) ∧
    (∀ u, HydraApi.sessionInvariant (HydraApi.handleSignOut u)) ∧
    (∀ (st : HydraApi.ApiState) (e : HydraApi.ApiError),
       HydraApi.sessionInvariant st.userAuth →
       HydraApi.sessionInvariant
         ((HydraApi.handleUnauthorizedError st e).1.userAuth)) := by
  refine ⟨?_, ?_, ?_, ?_, ?_⟩
  · intro a r expIn now ha hr hts
    simp [HydraApi.handleExternalAuth, HydraApi.sessionInvariant, ha, hr, hts]
  · intro u sub h
    cases sub with
    | none => simpa [HydraApi.applySubscriptionFetch] using h
    | some s => simpa [HydraApi.applySubscriptionFetch,
        HydraApi.sessionInvariant] using h
  · intro u a expIn now hu ha hts
    simp [HydraApi.refreshToken, HydraApi.sessionInvariant, ha, hu, hts]
  · intro u
    simp [HydraApi.handleSignOut, HydraApi.emptyUserAuth,
      HydraApi.sessionInvariant]
  · intro st e h
    unfold HydraApi.handleUnauthorizedError
    by_cases h401 : HydraApi.is401 e = true
    · simp only [h401, if_true]
      rw [HydraApi.sendSignOutEvent_userAuth]
      simp [HydraApi.emptyUserAuth, HydraApi.sessionInvariant]
    · simp only [h401, if_false]
      exact h

/-- Witness for C4: concrete sign-in, subscription fetch, refresh and forced
reset all satisfy the invariant. -/
theorem C4_witness :
    HydraApi.sessionInvariant
      (HydraApi.handleExternalAuth "tok" "ref" 3600 1700000000000) ∧
    HydraApi.sessionInvariant
      (HydraApi.applySubscriptionFetch HydraApi.sampleAuth
        (some (some 1800000000000))) ∧
    HydraApi.sessionInvariant
      (HydraApi.refreshToken HydraApi.sampleAuth "tok2" 3600 1700000000000) ∧
    HydraApi.sessionInvariant (HydraApi.handleSignOut HydraApi.sampleAuth) ∧
    HydraApi.sessionInvariant
      ((HydraApi.handleUnauthorizedError HydraApi.sampleState
          HydraApi.e401).1.userAuth) :=
  ⟨C4_session_invariant_after_transitions.1 "tok" "ref" 3600 1700000000000
      (by decide) (by decide) (by decide),
   C4_session_invariant_after_transitions.2.1 HydraApi.sampleAuth
      (some (some 1800000000000)) (by decide),
   C4_session_invariant_after_transitions.2.2.1 HydraApi.sampleAuth "tok2"
      3600 1700000000000 (by decide) (by decide) (by decide),
   C4_session_invariant_after_transitions.2.2.2.1 HydraApi.sampleAuth,
   C4_session_invariant_after_transitions.2.2.2.2 HydraApi.sampleState
      HydraApi.e401 (by decide)⟩

/-- C5 counterexample: an operation that times out on every attempt
(`AxiosError` with code `ETIMEDOUT` and no response) exhausts its retries and
is surfaced as the generic `Request failed` `NetworkError`, not as a
`BackendUnavailableError` — contradicting the claim that every
connection-level failure (including timeout) becomes
`BackendUnavailableError`. -/
theorem C5_counterexample :
    (HydraApi.retryRequest
        (fun (_ : Nat) (s : Unit) =>
          (s, (Except.error HydraApi.eTimeout : Except HydraApi.ApiError Nat)))
        3 1000 ()).2.outcome =
      HydraApi.RetryOutcome.requestFailed HydraApi.eTimeout ∧
    HydraApi.isBackendUnavailableOutcome
      (HydraApi.retryRequest
        (fun (_ : Nat) (s : Unit) =>
          (s, (Except.error HydraApi.eTimeout : Except HydraApi.ApiError Nat)))
        3 1000 ()).2.outcome = false := by
  refine ⟨by decide, by decide⟩

/-- C5 amended: after attempts are exhausted, connection-refused and
host-not-found failures are surfaced as `BackendUnavailableError`; repeated
5xx responses are surfaced as a `NetworkError` wrapping the last HTTP status;
a timeout (an `ETIMEDOUT` failure with no response) is surfaced as the
generic `Request failed` `NetworkError`.  Retryable conditions are: an axios
error with no response, an axios response status in `[500, 600)`, or a
non-axios error whose code is `ECONNREFUSED`, `ENOTFOUND` or `ETIMEDOUT`. -/
theorem C5_amended :
    (∀ (σ T : Type) (op : Nat → σ → σ × Except HydraApi.ApiError T) (st : σ)
       (n d : Nat) (code : Option HydraApi.ErrCode),
       (∀ i s, op i s = (s, Except.error (HydraApi.ApiError.axios code none))) →
       (code = some HydraApi.ErrCode.econnrefused ∨
        code = some HydraApi.ErrCode.enotfound) →
       (HydraApi.retryRequest op n d st).2.invocations = n + 1 ∧
       (HydraApi.retryRequest op n d st).2.outcome =
         HydraApi.RetryOutcome.backendUnavailable
           (HydraApi.ApiError.axios code none)) ∧
    (∀ (σ T : Type) (op : Nat → σ → σ × Except HydraApi.ApiError T) (st : σ)
       (n d s' : Nat) (code : Option HydraApi.ErrCode),
       (∀ i s, op i s =
          (s, Except.error (HydraApi.ApiError.axios code (some s')))) →
       code ≠ some HydraApi.ErrCode.econnrefused →
       code ≠ some HydraApi.ErrCode.enotfound →
       500 ≤ s' → s' < 600 →
       (HydraApi.retryRequest op n d st).2.invocations = n + 1 ∧
       (HydraApi.retryRequest op n d st).2.outcome =
         HydraApi.RetryOutcome.serverError s'
           (HydraApi.ApiError.axios code (some s'))) ∧
    (∀ (σ T : Type) (op : Nat → σ → σ × Except HydraApi.ApiError T) (st : σ)
       (n d : Nat),
       (∀ i s, op i s = (s, Except.error HydraApi.eTimeout)) →
       (HydraApi.retryRequest op n d st).2.invocations = n + 1 ∧
       (HydraApi.retryRequest op n d st).2.outcome =
         HydraApi.RetryOutcome.requestFailed HydraApi.eTimeout) ∧
    (∀ code, HydraApi.isRetryableError (HydraApi.ApiError.axios code none) =
       true) ∧
    (∀ code s',
       HydraApi.isRetryableError (HydraApi.ApiError.axios code (some s')) =
         true ↔ 500 ≤ s' ∧ s' < 600) ∧
    (∀ c, HydraApi.isRetryableError (HydraApi.ApiError.generic (some c)) =
       true ↔
       c = HydraApi.ErrCode.econnrefused ∨ c = HydraApi.ErrCode.enotfound ∨
       c = HydraApi.ErrCode.etimedout) := by
  refine ⟨?_, ?_, ?_, ?_, ?_, ?_⟩
  · intro σ T op st n d code hop hcode
    have hr : HydraApi.isRetryableError (HydraApi.ApiError.axios code none) =
        true := rfl
    have h := HydraApi.retryRequestGo_const_error op d
      (HydraApi.ApiError.axios code none) hop hr n 0 st
    unfold HydraApi.retryRequest
    rw [h]
    refine ⟨rfl, ?_⟩
    simp [HydraApi.categorize, hcode]
  · intro σ T op st n d s' code hop hc1 hc2 h5 h6
    have hr : HydraApi.isRetryableError
        (HydraApi.ApiError.axios code (some s')) = true := by
      simp [HydraApi.isRetryableError, h5, h6]
    have h := HydraApi.retryRequestGo_const_error op d
      (HydraApi.ApiError.axios code (some s')) hop hr n 0 st
    unfold HydraApi.retryRequest
    rw [h]
    refine ⟨rfl, ?_⟩
    simp [HydraApi.categorize, hc1, hc2, h5]
  · intro σ T op st n d hop
    have hr : HydraApi.isRetryableError HydraApi.eTimeout = true := rfl
    have h := HydraApi.retryRequestGo_const_error op d
      HydraApi.eTimeout hop hr n 0 st
    unfold HydraApi.retryRequest
    rw [h]
    refine ⟨rfl, ?_⟩
    simp [HydraApi.eTimeout, HydraApi.categorize]
  · intro code
    rfl
  · intro code s'
    simp [HydraApi.isRetryableError]
  · intro c
    cases c <;> simp [HydraApi.isRetryableError]

/-- Witness for C5 amended: a permanently connection-refused operation under
one allowed retry is invoked twice and surfaces `BackendUnavailableError`. -/
theorem C5_amended_witness :
    (HydraApi.retryRequest
        (fun (_ : Nat) (s : Unit) =>
          (s, (Except.error HydraApi.eConnRefused :
                Except HydraApi.ApiError Nat)))
        1 1000 ()).2.invocations = 1 + 1 ∧
    (HydraApi.retryRequest
        (fun (_ : Nat) (s : Unit) =>
          (s, (Except.error HydraApi.eConnRefused :
                Except HydraApi.ApiError Nat)))
        1 1000 ()).2.outcome =
      HydraApi.RetryOutcome.backendUnavailable HydraApi.eConnRefused :=
  C5_amended.1 Unit Nat
    (fun (_ : Nat) (s : Unit) =>
      (s, (Except.error HydraApi.eConnRefused : Except HydraApi.ApiError Nat)))
    () 1 1000 (some HydraApi.ErrCode.econnrefused)
    (fun _ _ => rfl) (Or.inl rfl)

namespace CriticalErrorHandler

/-- The lock loop never makes more attempts than its remaining budget. -/
theorem lockGo_attempts_le (acquire : Nat → Bool) :
    ∀ remaining attempt, (lockGo acquire remaining attempt).attempts ≤
      remaining := by
  intro remaining
  induction remaining with
  | zero => intro attempt; simp [lockGo]
  | succ n ih =>
      intro attempt
      rw [lockGo]
      by_cases h : acquire attempt = true
      · simp [h]
      · by_cases hn : n = 0
        · simp [h, hn]
        · simp only [h, Bool.false_eq_true, if_false, hn]
          have := ih (attempt + 1)
          simp
          omega

end CriticalErrorHandler

/-- C6 counterexample: when every lock attempt fails, the delays actually
awaited are 2 s after failing attempt 1 and 4 s after failing attempt 2 —
there is no 6 s delay, because the third failing attempt throws immediately,
contradicting the claim that delays of 2 s, 4 s and 6 s are waited on failing
attempts 1–3. -/
theorem C6_counterexample :
    (CriticalErrorHandler.handleLockAcquisition (fun _ => false)).delays =
      [2000, 4000] ∧
    (CriticalErrorHandler.handleLockAcquisition (fun _ => false)).delays ≠
      [2000, 4000, 6000] ∧
    6000 ∉ (CriticalErrorHandler.handleLockAcquisition
      (fun _ => false)).delays := by
  refine ⟨by decide, by decide, by decide⟩

/-- C6 amended: lock acquisition is attempted at most 3 times with linear
backoff `delay = baseDelay × attemptNumber` awaited after failing attempts 1
and 2 (2 s then 4 s with `baseDelay = 2 s`); when the 3rd attempt fails, no
further delay is awaited and no 4th attempt is made, and a fatal,
non-recoverable `LockFailure` with component `"Lock"` is raised. -/
theorem C6_amended :
    (∀ acquire,
       (CriticalErrorHandler.handleLockAcquisition acquire).attempts ≤ 3) ∧
    (CriticalErrorHandler.handleLockAcquisition (fun _ => false)).attempts =
      3 ∧
    (CriticalErrorHandler.handleLockAcquisition (fun _ => false)).delays =
      [2000, 4000] ∧
    (CriticalErrorHandler.handleLockAcquisition (fun _ => false)).result =
      Except.error CriticalErrorHandler.lockFailureError ∧
    CriticalErrorHandler.lockFailureError.component = "Lock" ∧
    CriticalErrorHandler.lockFailureError.recoverable = false := by
  refine ⟨fun acquire =>
    CriticalErrorHandler.lockGo_attempts_le acquire 3 1,
    by decide, by decide, by decide, rfl, rfl⟩

/-- C7: every failed service `init` is wrapped as a recoverable entry naming
the component and original message, appended to the accumulated error list in
invocation order while the loop continues, and a startup run in which exactly
two of the five services fail accumulates exactly those two entries and still
reaches `Ready`. -/
theorem C7_service_failures_accumulate :
    (∀ (acc : List CriticalErrorHandler.CriticalStartupError)
       (inits : List (String × Except String Unit)),
       CriticalErrorHandler.handleEssentialServices acc inits =
         acc ++ inits.filterMap (fun p =>
           match p.2 with
           | Except.ok _ => none
           | Except.error m =>
               some (CriticalErrorHandler.serviceInitFailureEntry p.1 m))) ∧
    CriticalErrorHandler.handleCriticalStartup (fun _ => true) true true true
        true [] CriticalErrorHandler.fiveServicesTwoFailing =
      CriticalErrorHandler.StartupOutcome.ready
        [CriticalErrorHandler.serviceInitFailureEntry "HydraApi"
          "connect ECONNREFUSED",
         CriticalErrorHandler.serviceInitFailureEntry "CommonRedistManager"
          "redist download failed"] ∧
    (CriticalErrorHandler.handleEssentialServices []
        CriticalErrorHandler.fiveServicesTwoFailing).length = 2 := by
  refine ⟨?_, by decide, by decide⟩
  intro acc inits
  induction inits generalizing acc with
  | nil => simp [CriticalErrorHandler.handleEssentialServices]
  | cons p rest ih =>
      obtain ⟨name, r⟩ := p
      cases r with
      | ok u =>
          simp [CriticalErrorHandler.handleEssentialServices, ih]
      | error m =>
          simp [CriticalErrorHandler.handleEssentialServices, ih]

/-- C8: with a non-recoverable startup failure the dialog shows
`["Exit", "Report Issue"]`, so selecting Report returns index 1 — but the
dispatch handles index 1 as the recoverable-only "Continue Anyway" case, so
nothing happens: no diagnostic record is serialized and the app does not
exit.  The serialization itself (`reportIssue`, reachable only via the
mislabeled index 2) does capture the triggering error, the accumulated
startup errors and the platform metadata. -/
theorem C8_report_selection_does_nothing :
    CriticalErrorHandler.isRecoverableError
      (CriticalErrorHandler.CriticalError.startup
        CriticalErrorHandler.lockFailureError) = false ∧
    CriticalErrorHandler.startupFailureButtons false =
      ["Exit", "Report Issue"] ∧
    CriticalErrorHandler.handleStartupFailure
        (CriticalErrorHandler.CriticalError.startup
          CriticalErrorHandler.lockFailureError)
        1 "2026-10-11T00:00:00.000Z" "stack-trace" []
        CriticalErrorHandler.sampleSystemInfo =
      { report := none, quit := false, retriedStartup := false,
        continuedLimited := false } ∧
    CriticalErrorHandler.reportIssue "2026-10-11T00:00:00.000Z"
        (CriticalErrorHandler.CriticalError.startup
          CriticalErrorHandler.lockFailureError)
        "stack-trace"
        [CriticalErrorHandler.serviceInitFailureEntry "HydraApi"
          "connect ECONNREFUSED"]
        CriticalErrorHandler.sampleSystemInfo =
      { timestamp := "2026-10-11T00:00:00.000Z",
        error := { name := "CriticalStartupError",
                   message := CriticalErrorHandler.lockFailureError.message,
                   stack := "stack-trace" },
        startupErrors :=
          [{ component := "HydraApi",
             message := "HydraApi failed to initialize: connect ECONNREFUSED",
             recoverable := true }],
        systemInfo := CriticalErrorHandler.sampleSystemInfo } := by
  refine ⟨rfl, rfl, by decide, by decide⟩

/-- C9: in every shutdown run that reaches the subprocess step and whose
cooperative `PythonRPC.kill` fails, the platform-specific forced kill is
still invoked (`taskkill` by process name on win32, signal-based `pkill`
elsewhere) and the lock release is still invoked afterwards, whether or not
it succeeds. -/
theorem C9_force_kill_then_release :
    ∀ (platform : CriticalErrorHandler.Platform) (releaseOk : Bool),
      CriticalErrorHandler.handleGracefulShutdown platform true true false
          releaseOk =
        [CriticalErrorHandler.ShutdownAction.stopDownloads,
         CriticalErrorHandler.ShutdownAction.disconnectWS,
         CriticalErrorHandler.ShutdownAction.pythonRpcKill] ++
        CriticalErrorHandler.forceKillPythonProcesses platform ++
        [CriticalErrorHandler.ShutdownAction.releaseLock] ++
        (if releaseOk then []
         else [CriticalErrorHandler.ShutdownAction.forceExit 1]) ∧
      (∀ a ∈ CriticalErrorHandler.forceKillPythonProcesses platform,
         a ∈ CriticalErrorHandler.handleGracefulShutdown platform true true
           false releaseOk) ∧
      CriticalErrorHandler.ShutdownAction.releaseLock ∈
        CriticalErrorHandler.handleGracefulShutdown platform true true false
          releaseOk := by
  intro platform releaseOk
  cases platform <;> cases releaseOk <;> refine ⟨by decide, by decide, by decide⟩

/-- Witness for C9: the non-win32, release-succeeds shutdown with a failed
cooperative kill runs `pkill` and then releases the lock. -/
theorem C9_witness :
    CriticalErrorHandler.handleGracefulShutdown
        CriticalErrorHandler.Platform.other true true false true =
      [CriticalErrorHandler.ShutdownAction.stopDownloads,
       CriticalErrorHandler.ShutdownAction.disconnectWS,
       CriticalErrorHandler.ShutdownAction.pythonRpcKill,
       CriticalErrorHandler.ShutdownAction.pkillPython,
       CriticalErrorHandler.ShutdownAction.releaseLock] ∧
    CriticalErrorHandler.ShutdownAction.releaseLock ∈
      CriticalErrorHandler.handleGracefulShutdown
        CriticalErrorHandler.Platform.other true true false true :=
  ⟨(C9_force_kill_then_release CriticalErrorHandler.Platform.other true).1,
   (C9_force_kill_then_release CriticalErrorHandler.Platform.other true).2.2⟩

/-- C10: an error that is not an axios HTTP 401 response — for example a
connection-level failure during token refresh — passes through
`handleUnauthorizedError` unchanged: the state (session, persisted records,
sign-out notifications) is untouched and the same error is rethrown; the same
holds for the refresh-failure path of `revalidateAccessTokenIfExpired`. -/
theorem C10_non_401_passes_through :
    (∀ (st : HydraApi.ApiState) (e : HydraApi.ApiError),
       HydraApi.is401 e = false →
       HydraApi.handleUnauthorizedError st e = (st, e)) ∧
    (∀ (st : HydraApi.ApiState) (now : Int) (e : HydraApi.ApiError),
       HydraApi.is401 e = false →
       st.userAuth.expirationTimestamp < now →
       HydraApi.revalidateAccessTokenIfExpired st now (Except.error e) =
         (st, some e)) := by
  constructor
  · intro st e h
    simp [HydraApi.handleUnauthorizedError, h]
  · intro st now e h hlt
    simp [HydraApi.revalidateAccessTokenIfExpired, hlt,
      HydraApi.handleUnauthorizedError, h]

/-- Witness for C10: a connection-refused failure leaves the state unchanged
and is rethrown, both directly and through an expired-token refresh. -/
theorem C10_witness :
    HydraApi.is401 HydraApi.eConnRefused = false ∧
    HydraApi.handleUnauthorizedError HydraApi.sampleState
        HydraApi.eConnRefused = (HydraApi.sampleState, HydraApi.eConnRefused) ∧
    HydraApi.revalidateAccessTokenIfExpired HydraApi.sampleState
        1800000000000 (Except.error HydraApi.eConnRefused) =
      (HydraApi.sampleState, some HydraApi.eConnRefused) :=
  ⟨by decide,
   C10_non_401_passes_through.1 HydraApi.sampleState HydraApi.eConnRefused
     (by decide),
   C10_non_401_passes_through.2 HydraApi.sampleState 1800000000000
     HydraApi.eConnRefused (by decide) (by decide)⟩
